import Mathlib

/-!
Verification of the `secrets` CLI (src/src/cli/secrets-cli.ts) of bamwerks/openclaw,
together with a model of the credential-broker operations it calls.

The CLI actions are embedded as pure functions of their inputs and of the result of
the broker call they make; broker operations themselves are not under src/ and are
modelled from the specification where a claim needs them (each such definition says
so in its doc comment).
-/

namespace OpenClaw

/-- Access tiers of a secret (`SecretTier` in src/secrets, re-exported to the CLI):
exactly the strings "open", "controlled", "restricted". -/
inductive SecretTier where
  | «open»
  | controlled
  | restricted
  deriving DecidableEq, Repr

/-- The string a tier denotes (the value `parseTier` returns in the source). -/
def SecretTier.toString : SecretTier → String
  | .«open» => "open"
  | .controlled => "controlled"
  | .restricted => "restricted"

instance {α β : Type} [DecidableEq α] [DecidableEq β] : DecidableEq (Except α β) := fun a b =>
  match a, b with
  | .ok x, .ok y => if h : x = y then isTrue (by rw [h]) else isFalse (by simp [h])
  | .error x, .error y => if h : x = y then isTrue (by rw [h]) else isFalse (by simp [h])
  | .ok _, .error _ => isFalse (by simp)
  | .error _, .ok _ => isFalse (by simp)

/-- ASCII case folding of one character, modelling JavaScript `toLowerCase` on the
alphabet relevant to tier strings (pure ASCII, where the two agree). -/
def jsToLowerChar (c : Char) : Char :=
  if 'A' ≤ c ∧ c ≤ 'Z' then Char.ofNat (c.toNat + 32) else c

/-- ASCII case folding of a string (JavaScript `tier.toLowerCase()` in `parseTier`). -/
def jsToLower (s : String) : String :=
  String.mk (s.data.map jsToLowerChar)

/-- `parseTier` (src/src/cli/secrets-cli.ts lines 30-37). `none` models the
`undefined` tier; JavaScript `!tier` is also true for the empty string. A thrown
`Error` is modelled as `Except.error` carrying the message. -/
def parseTier (tier : Option String) : Except String SecretTier :=
  match tier with
  | none => .ok .controlled
  | some t =>
    if t = "" then .ok .controlled
    else
      let normalized := jsToLower t
      if normalized = "open" then .ok .«open»
      else if normalized = "controlled" then .ok .controlled
      else if normalized = "restricted" then .ok .restricted
      else .error ("Invalid tier: " ++ t ++ ". Must be open, controlled, or restricted.")

/-- Whitespace as skipped by JavaScript `parseInt` before the digits. -/
def jsIsWhitespace (c : Char) : Bool :=
  c.isWhitespace

/-- The longest leading run of decimal digits. -/
def leadingDigits (cs : List Char) : List Char :=
  cs.takeWhile Char.isDigit

/-- Value of a digit string, most significant digit first. -/
def digitsToNat (cs : List Char) : Nat :=
  cs.foldl (fun acc c => acc * 10 + (c.toNat - 48)) 0

/-- Parse the leading digit run; `none` when there is no digit (NaN in JavaScript). -/
def parseDigits (cs : List Char) : Option Nat :=
  let ds := leadingDigits cs
  if ds.isEmpty then none else some (digitsToNat ds)

/-- JavaScript `parseInt(s, 10)`: skip leading whitespace, read an optional sign, then
the longest leading run of decimal digits; the result is NaN (`none`) exactly when
that run is empty, and otherwise ignores any trailing garbage. -/
def jsParseInt (s : String) : Option Int :=
  match s.data.dropWhile jsIsWhitespace with
  | '+' :: rest => (parseDigits rest).map (fun n => (n : Int))
  | '-' :: rest => (parseDigits rest).map (fun n => -(n : Int))
  | rest => (parseDigits rest).map (fun n => (n : Int))

/-- Observable output of a CLI action: messages written through `defaultRuntime.error`,
messages written through `defaultRuntime.log`, and the exit code passed to
`defaultRuntime.exit` (or `none` when the action returns without exiting). -/
structure CliOutput where
  errs : List String
  logs : List String
  exitCode : Option Nat
  deriving DecidableEq, Repr

/-- One escaped character of a JSON string literal, as produced by `JSON.stringify`. -/
def jsonEscapeChar (c : Char) : String :=
  if c = '"' then "\\\""
  else if c = '\\' then "\\\\"
  else if c = '\n' then "\\n"
  else if c = '\r' then "\\r"
  else if c = '\t' then "\\t"
  else String.mk [c]

/-- Body of a JSON string literal. -/
def jsonEscape (s : String) : String :=
  String.join (s.data.map jsonEscapeChar)

/-- A JSON string literal. -/
def jsonStr (s : String) : String :=
  "\"" ++ jsonEscape s ++ "\""

/-- `JSON.stringify(\x7b name, value \x7d, null, 2)` as printed by `secrets get --json`. -/
def jsonGetOutput (name value : String) : String :=
  "\x7b\n  \"name\": " ++ jsonStr name ++ ",\n  \"value\": " ++ jsonStr value ++ "\n\x7d"

/-- The `secrets get` action (src/src/cli/secrets-cli.ts lines 114-131) as a function of
the result of the `getSecret` broker call: `.error msg` models `getSecret` throwing,
`.ok none` the absent value. JavaScript `if (!value)` takes the not-found branch both
for the absent value and for the empty string. -/
def getAction (name : String) (jsonMode : Bool) (result : Except String (Option String)) : CliOutput :=
  match result with
  | .error msg =>
    { errs := ["Failed to get secret: " ++ msg], logs := [], exitCode := some 1 }
  | .ok value =>
    if value = none ∨ value = some "" then
      { errs := ["Secret \x27" ++ name ++ "\x27 not found or access denied"]
        logs := [], exitCode := some 2 }
    else
      { errs := []
        logs := [if jsonMode then jsonGetOutput name (value.getD "") else value.getD ""]
        exitCode := none }

/-- What the `secrets set` action does before any broker call returns: either it rejects
the invocation with an error message and exit code (never calling `setSecret`), or it
calls `setSecret` with the given arguments. -/
inductive SetResult where
  | rejected (err : String) (exitCode : Nat)
  | stored (name value : String) (tier : SecretTier) (description : Option String)
  deriving DecidableEq, Repr

/-- The value read from stdin: `none` models a TTY (no piped input), `some s` piped
input, which `readStdin` (lines 50-57) trims. -/
def stdinValue (stdin : Option String) : String :=
  match stdin with
  | some s => s.trim
  | none => ""

/-- The `secrets set` action (lines 140-155) up to the `setSecret` call. The caught
`parseTier` error is reported as `Failed to set secret: ...` with exit code 1.
JavaScript `opts.value || (!process.stdin.isTTY ? await readStdin() : "")` falls
through to stdin when `--value` is absent or the empty string. -/
def setAction (name : String) (tierOpt valueOpt descOpt : Option String)
    (stdin : Option String) : SetResult :=
  match parseTier tierOpt with
  | .error msg => .rejected ("Failed to set secret: " ++ msg) 1
  | .ok tier =>
    let value :=
      match valueOpt with
      | some v => if v ≠ "" then v else stdinValue stdin
      | none => stdinValue stdin
    if value = "" then .rejected "No value provided. Use --value or pipe to stdin." 1
    else .stored name value tier descOpt

/-- What the `secrets grant` action does before any broker call returns: either it
rejects the invocation (never calling `grantSecret`), or it calls `grantSecret` with
the given TTL (in minutes; `none` when `--ttl` was not supplied or was empty). -/
inductive GrantResult where
  | rejected (err : String) (exitCode : Nat)
  | called (name code : String) (ttlMinutes : Option Int)
  deriving DecidableEq, Repr

/-- The `secrets grant` action (lines 158-182) up to the `grantSecret` call.
JavaScript `opts.ttl ? parseInt(opts.ttl, 10) : undefined` leaves the TTL undefined
when the option is absent or the empty string (falsy); otherwise `parseInt` runs and
`isNaN(ttlMinutes) || ttlMinutes <= 0` is rejected with exit code 1. -/
def grantAction (name code : String) (ttlOpt : Option String) : GrantResult :=
  let ttlMinutes : Option (Option Int) :=
    match ttlOpt with
    | some s => if s ≠ "" then some (jsParseInt s) else none
    | none => none
  match ttlMinutes with
  | some none => .rejected "TTL must be a positive number" 1
  | some (some n) =>
    if n ≤ 0 then .rejected "TTL must be a positive number" 1
    else .called name code (some n)
  | none => .called name code none

/-- What the `secrets delete` action does before any broker call returns. -/
inductive DeleteResult where
  | rejected (err : String) (exitCode : Nat)
  | called (name : String)
  deriving DecidableEq, Repr

/-- The `secrets delete` action (lines 198-217) up to the `deleteSecret` call: the
guard `if (!opts.confirm)` reports an error, exits 1 and returns before the broker
call (and `requiredOption("--confirm")` already refuses the invocation earlier). -/
def deleteAction (name : String) (confirm : Bool) : DeleteResult :=
  if !confirm then .rejected "Deletion requires --confirm flag" 1
  else .called name

/-- Modelled from the spec: a record of the Secret Registry (src/secrets is not under
src/): name, tier, description, sealed value. Sealing (Crypto Engine) is outside this
embedding; `value` holds the stored value verbatim. -/
structure SecretRec where
  name : String
  tier : SecretTier
  value : String
  description : Option String
  deriving DecidableEq, Repr

/-- Modelled from the spec: a Grant Manager record — secret name and expiry timestamp
(milliseconds); validity is derived as `now < expiresAt`, never stored. -/
structure Grant where
  secretName : String
  expiresAt : Int
  deriving DecidableEq, Repr

/-- Modelled from the spec: the durable broker state — the secret registry and the
grant store. -/
structure BrokerState where
  registry : List SecretRec
  grants : List Grant
  deriving DecidableEq, Repr

/-- Registry lookup by name. -/
def findSecret (s : BrokerState) (name : String) : Option SecretRec :=
  s.registry.find? (fun r => r.name = name)

/-- The grants currently stored for a name. -/
def grantsFor (s : BrokerState) (name : String) : List Grant :=
  s.grants.filter (fun g => g.secretName = name)

/-- Modelled from the spec: lazy grant validity — some stored grant for the name has
`now < expiresAt`. -/
def hasValidGrant (s : BrokerState) (name : String) (now : Int) : Bool :=
  (grantsFor s name).any (fun g => now < g.expiresAt)

/-- Modelled from the spec: `getSecret(name) -> string | absent`. An `open`-tier secret
is returned directly; a `controlled`/`restricted` one only under an unexpired grant;
a missing secret and a denied access both return the same absent signal. -/
def getSecret (s : BrokerState) (name : String) (now : Int) : Option String :=
  match findSecret s name with
  | none => none
  | some r =>
    match r.tier with
    | .«open» => some r.value
    | _ => if hasValidGrant s name now then some r.value else none

/-- Upsert of a registry record (replace in place, append when absent). -/
def upsert (l : List SecretRec) (name value : String) (tier : SecretTier)
    (descOpt : Option String) : List SecretRec :=
  match l with
  | [] => [⟨name, tier, value, descOpt⟩]
  | r :: rest =>
    if r.name = name then ⟨name, tier, value, descOpt⟩ :: rest
    else r :: upsert rest name value tier descOpt

/-- Modelled from the spec: `setSecret(name, value, tier, description?)` — seals the
value and upserts the Secret record (idempotent replace, no error on overwrite). -/
def setSecret (s : BrokerState) (name value : String) (tier : SecretTier)
    (descOpt : Option String) : BrokerState :=
  { s with registry := upsert s.registry name value tier descOpt }

/-- Failures of the Grant Manager issue operation, per the spec error taxonomy. -/
inductive BrokerErr where
  | notFound
  | invalidTier
  | invalidCode
  deriving DecidableEq, Repr

/-- Modelled from the spec: `grantSecret(name, code, ttlMinutes?)` — fails when the
secret is missing, when it is `open` tier, or when TOTP verification fails (the Crypto
Engine is outside this embedding, so the verification outcome is the boolean `codeOk`).
On success the new grant replaces any stored grant for the name (last-writer-wins; no
additive stacking) and the default TTL is 60 minutes. -/
def grantSecret (s : BrokerState) (name : String) (codeOk : Bool)
    (ttlMinutes : Option Int) (now : Int) : Except BrokerErr (BrokerState × Int) :=
  match findSecret s name with
  | none => .error .notFound
  | some r =>
    if r.tier = .«open» then .error .invalidTier
    else if !codeOk then .error .invalidCode
    else
      let expiresAt := now + (ttlMinutes.getD 60) * 60000
      .ok ({ s with grants := ⟨name, expiresAt⟩ :: s.grants.filter (fun g => g.secretName ≠ name) },
           expiresAt)

/-- The grant status reported per secret by `listSecrets`. -/
structure GrantStatus where
  valid : Bool
  expiresAt : Option Int
  remainingMinutes : Option Int
  deriving DecidableEq, Repr

/-- One element of the `listSecrets` result: name, tier and grant status only. -/
structure ListEntry where
  name : String
  tier : SecretTier
  grant : GrantStatus
  deriving DecidableEq, Repr

/-- Modelled from the spec: the grant status for one name — an unexpired stored grant
reports valid with expiry and remaining minutes; an expired one is retained and
reported invalid with its expiry; no stored grant reports invalid with nothing. -/
def grantStatusOf (grants : List Grant) (name : String) (now : Int) : GrantStatus :=
  match grants.filter (fun g => g.secretName = name) with
  | [] => ⟨false, none, none⟩
  | g :: _ =>
    if now < g.expiresAt then ⟨true, some g.expiresAt, some ((g.expiresAt - now) / 60000)⟩
    else ⟨false, some g.expiresAt, none⟩

/-- Modelled from the spec: `listSecrets() -> ordered sequence of
\x7bname, tier, grant\x7d` — a projection of the registry that queries the Grant
Manager per secret and never exposes sealed or plaintext values. -/
def listSecrets (s : BrokerState) (now : Int) : List ListEntry :=
  s.registry.map (fun r => ⟨r.name, r.tier, grantStatusOf s.grants r.name now⟩)

/-- `formatGrantStatus` (lines 39-48), colour codes dropped; `now` stands for
`Date.now()`. JavaScript `!expiresAt` is also true for the timestamp 0. -/
def formatGrantStatus (valid : Bool) (expiresAt : Option Int)
    (remainingMinutes : Option Int) (now : Int) : String :=
  match expiresAt with
  | none => "—"
  | some e =>
    if !valid ∨ e = 0 then "—"
    else if e ≤ now then "expired"
    else
      match remainingMinutes with
      | some rm =>
        if rm / 60 > 0 then ToString.toString (rm / 60) ++ "h " ++ ToString.toString (rm % 60) ++ "m"
        else ToString.toString (rm % 60) ++ "m"
      | none => "valid"

/-- One row of the table printed by `secrets list`: the four cells Name, Tier,
Grant Status, Expires. -/
structure TableRow where
  rowName : String
  rowTier : String
  rowGrant : String
  rowExpires : String
  deriving DecidableEq, Repr

/-- The table rows built by the `secrets list` action (lines 90-105), colour codes
dropped (the theme only wraps its argument in terminal escapes). -/
def listRows (entries : List ListEntry) (now : Int) : List TableRow :=
  entries.map (fun s =>
    { rowName := s.name
      rowTier := s.tier.toString
      rowGrant :=
        if s.tier = .«open» then "always"
        else if s.grant.valid then "✓ valid" else "✗ needs grant"
      rowExpires :=
        if s.tier = .«open» then "—"
        else formatGrantStatus s.grant.valid s.grant.expiresAt s.grant.remainingMinutes now })

/-- JSON rendering of one grant status, undefined fields omitted as by
`JSON.stringify`. -/
def jsonOfGrant (g : GrantStatus) : String :=
  "\x7b\"valid\": " ++ (if g.valid then "true" else "false")
    ++ (match g.expiresAt with
        | some e => ", \"expiresAt\": " ++ ToString.toString e
        | none => "")
    ++ (match g.remainingMinutes with
        | some m => ", \"remainingMinutes\": " ++ ToString.toString m
        | none => "")
    ++ "\x7d"

/-- JSON rendering of one `listSecrets` entry. -/
def jsonOfEntry (e : ListEntry) : String :=
  "\x7b\"name\": " ++ jsonStr e.name ++ ", \"tier\": " ++ jsonStr e.tier.toString
    ++ ", \"grant\": " ++ jsonOfGrant e.grant ++ "\x7d"

/-- The output of `secrets list --json`: `JSON.stringify(secretsList, null, 2)`
(indentation details abbreviated; the claims only use that it is a function of the
entries). -/
def listJson (entries : List ListEntry) : String :=
  "[" ++ String.intercalate ", " (entries.map jsonOfEntry) ++ "]"

/-- Two broker states agreeing on secret names, tiers, and the grant store — they may
differ arbitrarily in stored values and descriptions. -/
def sameShape (s₁ s₂ : BrokerState) : Prop :=
  s₁.registry.map (fun r => (r.name, r.tier)) = s₂.registry.map (fun r => (r.name, r.tier))
  ∧ s₁.grants = s₂.grants

/-- A spec-side notion of a numeric string, following the claim wording "a positive
integer number of minutes": an optional sign followed by a nonempty run of decimal
digits and nothing else. -/
def isDecimalNumeral (s : String) : Bool :=
  let cs :=
    match s.data with
    | '+' :: rest => rest
    | '-' :: rest => rest
    | cs => cs
  !cs.isEmpty && cs.all Char.isDigit

theorem upsert_find? (name value : String) (tier : SecretTier) (d : Option String) :
    ∀ l : List SecretRec,
      (upsert l name value tier d).find? (fun r => r.name = name) = some ⟨name, tier, value, d⟩
  | [] => by simp [upsert, List.find?]
  | r :: rest => by
    unfold upsert
    by_cases h : r.name = name
    · simp [h, List.find?]
    · simp [h, List.find?, upsert_find? name value tier d rest]

theorem findSecret_setSecret (s : BrokerState) (name value : String) (tier : SecretTier)
    (d : Option String) :
    findSecret (setSecret s name value tier d) name = some ⟨name, tier, value, d⟩ :=
  upsert_find? name value tier d s.registry

theorem filter_eq_of_filter_ne (l : List Grant) (name : String) :
    (l.filter (fun g => g.secretName ≠ name)).filter (fun g => g.secretName = name) = [] := by
  induction l with
  | nil => rfl
  | cons g rest ih => by_cases h : g.secretName = name <;> simp [List.filter_cons, h, ih]

theorem listEntries_congr (g : List Grant) (now : Int) :
    ∀ l₁ l₂ : List SecretRec,
      l₁.map (fun r => (r.name, r.tier)) = l₂.map (fun r => (r.name, r.tier)) →
      l₁.map (fun r => ListEntry.mk r.name r.tier (grantStatusOf g r.name now))
        = l₂.map (fun r => ListEntry.mk r.name r.tier (grantStatusOf g r.name now))
  | [], [], _ => rfl
  | [], _ :: _, h => by simp at h
  | _ :: _, [], h => by simp at h
  | r₁ :: t₁, r₂ :: t₂, h => by
    simp only [List.map_cons, List.cons.injEq, Prod.mk.injEq] at h
    obtain ⟨⟨hn, ht⟩, htail⟩ := h
    simp only [List.map_cons, List.cons.injEq]
    exact ⟨by rw [hn, ht], listEntries_congr g now t₁ t₂ htail⟩

/-- Claim C5: an invocation of `secrets set` with no `--value` option and an empty
(or absent) stdin is rejected with exit code 1 and `setSecret` is never called, so
the registry is untouched. -/
theorem c5_set_requires_value (name : String) (tierOpt descOpt stdin : Option String)
    (h : stdinValue stdin = "") :
    ∃ msg, setAction name tierOpt none descOpt stdin = .rejected msg 1 := by
  cases hp : parseTier tierOpt with
  | error msg =>
    exact ⟨"Failed to set secret: " ++ msg, by unfold setAction; rw [hp]⟩
  | ok tier =>
    refine ⟨"No value provided. Use --value or pipe to stdin.", ?_⟩
    unfold setAction
    rw [hp]
    simp [h]

theorem c5_set_requires_value_witness :
    ∃ msg, setAction "db-pass" none none none none = .rejected msg 1 :=
  c5_set_requires_value "db-pass" none none none rfl

/-- Claim C9 fails as stated: `getSecret` returning the present value `""` is treated by
the JavaScript truthiness test `if (!value)` exactly like the absent value — the command
prints nothing and exits with code 2 instead of printing the value. -/
theorem c9_counterexample :
    getAction "api-key" false (.ok (some ""))
      = { errs := ["Secret \x27api-key\x27 not found or access denied"]
          logs := [], exitCode := some 2 } := by
  decide

/-- Claim C9 amended: if `getSecret` returns a present non-empty value the command
prints it (raw or as JSON) and does not exit with an error; if it returns the absent
value or the empty string the command exits with code 2; if it throws, the command
exits with code 1. -/
theorem c9_amended_get_exit_codes (name : String) (jsonMode : Bool) :
    (∀ v : String, v ≠ "" →
      getAction name jsonMode (.ok (some v))
        = { errs := []
            logs := [if jsonMode then jsonGetOutput name v else v]
            exitCode := none })
    ∧ getAction name jsonMode (.ok none)
        = { errs := ["Secret \x27" ++ name ++ "\x27 not found or access denied"]
            logs := [], exitCode := some 2 }
    ∧ getAction name jsonMode (.ok (some ""))
        = { errs := ["Secret \x27" ++ name ++ "\x27 not found or access denied"]
            logs := [], exitCode := some 2 }
    ∧ (∀ msg, getAction name jsonMode (.error msg)
        = { errs := ["Failed to get secret: " ++ msg], logs := [], exitCode := some 1 }) := by
  refine ⟨?_, by simp [getAction], by simp [getAction], fun msg => rfl⟩
  intro v hv
  simp [getAction, hv]

theorem c9_amended_get_exit_codes_witness :
    getAction "db-pass" false (.ok (some "s3cr3t"))
      = { errs := [], logs := ["s3cr3t"], exitCode := none } :=
  (c9_amended_get_exit_codes "db-pass" false).1 "s3cr3t" (by decide)

/-- Claim C10: `secrets delete` without `--confirm` reports an error and exits with
code 1 before the `deleteSecret` call; with `--confirm` it calls `deleteSecret`. -/
theorem c10_delete_requires_confirm (name : String) :
    deleteAction name false = .rejected "Deletion requires --confirm flag" 1
    ∧ deleteAction name true = .called name :=
  ⟨rfl, rfl⟩

/-- Claim C2 fails as stated: the tier input "OPEN" is not one of the three strings
`open`, `controlled`, `restricted`, yet `secrets set` accepts it and calls `setSecret`
with tier `open` (matching is case-insensitive). -/
theorem c2_counterexample :
    setAction "db-pass" (some "OPEN") (some "v") none none
      = .stored "db-pass" "v" .«open» none
    ∧ ("OPEN" ≠ "open" ∧ "OPEN" ≠ "controlled" ∧ "OPEN" ≠ "restricted") := by
  decide

/-- Claim C2 amended: the tier input is accepted iff it is absent or empty (defaulting
to `controlled`) or its lowercased form is one of the three strings `open`,
`controlled`, `restricted`; any other tier input makes `secrets set` fail with exit
code 1 without calling `setSecret`. -/
theorem c2_amended_tier_validation (t name : String) (valueOpt descOpt stdin : Option String) :
    (¬ (t = "" ∨ jsToLower t = "open" ∨ jsToLower t = "controlled" ∨ jsToLower t = "restricted") →
      setAction name (some t) valueOpt descOpt stdin
        = .rejected ("Failed to set secret: "
            ++ ("Invalid tier: " ++ t ++ ". Must be open, controlled, or restricted.")) 1)
    ∧ ((t = "" ∨ jsToLower t = "open" ∨ jsToLower t = "controlled" ∨ jsToLower t = "restricted") →
      ∃ tier, parseTier (some t) = .ok tier) := by
  constructor
  · intro h
    push_neg at h
    obtain ⟨h0, h1, h2, h3⟩ := h
    unfold setAction parseTier
    simp [h0, h1, h2, h3]
  · rintro (h | h | h | h)
    · exact ⟨.controlled, by simp [parseTier, h]⟩
    · have h0 : t ≠ "" := by
        intro he; rw [he] at h; exact absurd h (by decide)
      exact ⟨.«open», by simp [parseTier, h0, h]⟩
    · have h0 : t ≠ "" := by
        intro he; rw [he] at h; exact absurd h (by decide)
      exact ⟨.controlled, by simp [parseTier, h0, h]⟩
    · have h0 : t ≠ "" := by
        intro he; rw [he] at h; exact absurd h (by decide)
      exact ⟨.restricted, by simp [parseTier, h0, h]⟩

theorem c2_amended_tier_validation_witness :
    setAction "db-pass" (some "secret") (some "v") none none
      = .rejected ("Failed to set secret: "
          ++ ("Invalid tier: " ++ "secret" ++ ". Must be open, controlled, or restricted.")) 1 :=
  (c2_amended_tier_validation "secret" "db-pass" (some "v") none none).1 (by decide)

/-- Claim C3 fails as stated: the TTL input "12abc" is not a numeral, yet `secrets
grant` does not fail — JavaScript `parseInt` reads the leading digits and the command
forwards the TTL `12` to `grantSecret`. -/
theorem c3_counterexample :
    grantAction "db-pass" "123456" (some "12abc") = .called "db-pass" "123456" (some 12)
    ∧ isDecimalNumeral "12abc" = false := by
  decide

/-- Claim C3 amended: for a non-empty `--ttl` value, when its base-10 leading-digits
parse (JavaScript `parseInt`) is NaN or non-positive the command fails with exit code 1
and `grantSecret` is never called; and every TTL forwarded to `grantSecret` is a
positive integer (namely that parse). -/
theorem c3_amended_ttl_validation (name code s : String) (hs : s ≠ "") :
    (jsParseInt s = none →
      grantAction name code (some s) = .rejected "TTL must be a positive number" 1)
    ∧ (∀ n : Int, jsParseInt s = some n → n ≤ 0 →
      grantAction name code (some s) = .rejected "TTL must be a positive number" 1)
    ∧ (∀ n : Int, grantAction name code (some s) = .called name code (some n) →
      0 < n ∧ jsParseInt s = some n) := by
  refine ⟨?_, ?_, ?_⟩
  · intro h
    simp [grantAction, hs, h]
  · intro n h hle
    simp [grantAction, hs, h, hle]
  · intro n h
    cases hp : jsParseInt s with
    | none =>
      have hr : grantAction name code (some s) = .rejected "TTL must be a positive number" 1 := by
        simp [grantAction, hs, hp]
      rw [hr] at h
      exact absurd h (by simp)
    | some m =>
      by_cases hm : m ≤ 0
      · have hr : grantAction name code (some s) = .rejected "TTL must be a positive number" 1 := by
          simp [grantAction, hs, hp, hm]
        rw [hr] at h
        exact absurd h (by simp)
      · have hr : grantAction name code (some s) = .called name code (some m) := by
          simp [grantAction, hs, hp, hm]
        rw [hr] at h
        simp only [GrantResult.called.injEq, Option.some.injEq] at h
        obtain ⟨-, -, hmn⟩ := h
        subst hmn
        exact ⟨by omega, rfl⟩

theorem c3_amended_ttl_validation_witness :
    grantAction "db-pass" "123456" (some "0") = .rejected "TTL must be a positive number" 1 :=
  ((c3_amended_ttl_validation "db-pass" "123456" "0" (by decide)).2.1) 0 (by decide) (by decide)

/-- Claim C1: when `getSecret` returns the absent value, `secrets get` emits the same
error message and the same exit code (2) whether the secret does not exist (state `s₁`)
or exists tier-gated without a valid grant (state `s₂`): the output is a function of
the absent signal alone, never of the reason for absence. -/
theorem c1_get_absent_indistinguishable (name : String) (now : Int) (jsonMode : Bool)
    (s₁ s₂ : BrokerState) (r : SecretRec)
    (h₁ : findSecret s₁ name = none)
    (h₂ : findSecret s₂ name = some r)
    (ht : r.tier ≠ .«open»)
    (hg : hasValidGrant s₂ name now = false) :
    getAction name jsonMode (.ok (getSecret s₁ name now))
      = getAction name jsonMode (.ok (getSecret s₂ name now))
    ∧ getAction name jsonMode (.ok (getSecret s₂ name now))
      = { errs := ["Secret \x27" ++ name ++ "\x27 not found or access denied"]
          logs := [], exitCode := some 2 } := by
  have g1 : getSecret s₁ name now = none := by
    unfold getSecret
    rw [h₁]
  have g2 : getSecret s₂ name now = none := by
    unfold getSecret
    rw [h₂]
    cases htier : r.tier with
    | «open» => exact absurd htier ht
    | controlled => simp [hg]
    | restricted => simp [hg]
  rw [g1, g2]
  exact ⟨rfl, by simp [getAction]⟩

theorem c1_get_absent_indistinguishable_witness :
    getAction "db-pass" false (.ok (getSecret ⟨[], []⟩ "db-pass" 0))
      = getAction "db-pass" false
          (.ok (getSecret ⟨[⟨"db-pass", .restricted, "s3cr3t", none⟩], []⟩ "db-pass" 0))
    ∧ getAction "db-pass" false
          (.ok (getSecret ⟨[⟨"db-pass", .restricted, "s3cr3t", none⟩], []⟩ "db-pass" 0))
      = { errs := ["Secret \x27db-pass\x27 not found or access denied"]
          logs := [], exitCode := some 2 } :=
  c1_get_absent_indistinguishable "db-pass" 0 false ⟨[], []⟩
    ⟨[⟨"db-pass", .restricted, "s3cr3t", none⟩], []⟩
    ⟨"db-pass", .restricted, "s3cr3t", none⟩ (by decide) (by decide) (by decide) (by decide)

/-- Claim C4: the output of `secrets list` — the table rows and the JSON rendering
alike — is a function of the secrets' names, tiers and grant statuses only: two broker
states agreeing on those but storing different (sealed or plaintext) values and
descriptions render identically, so no value ever reaches the output. -/
theorem c4_list_no_value_leak (s₁ s₂ : BrokerState) (now : Int) (h : sameShape s₁ s₂) :
    listSecrets s₁ now = listSecrets s₂ now
    ∧ listRows (listSecrets s₁ now) now = listRows (listSecrets s₂ now) now
    ∧ listJson (listSecrets s₁ now) = listJson (listSecrets s₂ now) := by
  obtain ⟨hreg, hgr⟩ := h
  have hl : listSecrets s₁ now = listSecrets s₂ now := by
    unfold listSecrets
    rw [hgr]
    exact listEntries_congr s₂.grants now s₁.registry s₂.registry hreg
  exact ⟨hl, by rw [hl], by rw [hl]⟩

theorem c4_list_no_value_leak_witness :
    listSecrets ⟨[⟨"db-pass", .restricted, "s3cr3t", none⟩], []⟩ 0
      = listSecrets ⟨[⟨"db-pass", .restricted, "hunter2", some "other"⟩], []⟩ 0
    ∧ listRows (listSecrets ⟨[⟨"db-pass", .restricted, "s3cr3t", none⟩], []⟩ 0) 0
      = listRows (listSecrets ⟨[⟨"db-pass", .restricted, "hunter2", some "other"⟩], []⟩ 0) 0
    ∧ listJson (listSecrets ⟨[⟨"db-pass", .restricted, "s3cr3t", none⟩], []⟩ 0)
      = listJson (listSecrets ⟨[⟨"db-pass", .restricted, "hunter2", some "other"⟩], []⟩ 0) :=
  c4_list_no_value_leak ⟨[⟨"db-pass", .restricted, "s3cr3t", none⟩], []⟩
    ⟨[⟨"db-pass", .restricted, "hunter2", some "other"⟩], []⟩ 0 ⟨by decide, by decide⟩

/-- Claim C6: for a secret of tier `open`, after any `set` of a value, `get` succeeds
and returns that last-set value, in every grant state — no grant is needed (the prior
state `s`, including its grant store, is arbitrary, and so is `now`). -/
theorem c6_open_get_without_grant (s : BrokerState) (name v : String)
    (descOpt : Option String) (now : Int) :
    getSecret (setSecret s name v .«open» descOpt) name now = some v := by
  unfold getSecret
  rw [findSecret_setSecret]

theorem issue_leaves_one_grant (s s' : BrokerState) (name : String)
    (ttl : Option Int) (now e : Int)
    (h₂ : grantSecret s name true ttl now = .ok (s', e)) :
    grantsFor s' name = [⟨name, e⟩] ∧ e = now + ttl.getD 60 * 60000 := by
  cases hf : findSecret s name with
  | none =>
    have : grantSecret s name true ttl now = .error .notFound := by
      unfold grantSecret
      rw [hf]
    rw [this] at h₂
    exact absurd h₂ (by simp)
  | some r =>
    by_cases ht : r.tier = .«open»
    · have : grantSecret s name true ttl now = .error .invalidTier := by
        unfold grantSecret
        rw [hf]
        simp [ht]
      rw [this] at h₂
      exact absurd h₂ (by simp)
    · have hok : grantSecret s name true ttl now
          = .ok ({ s with grants := ⟨name, now + ttl.getD 60 * 60000⟩ ::
                     s.grants.filter (fun g => g.secretName ≠ name) },
                 now + ttl.getD 60 * 60000) := by
        unfold grantSecret
        rw [hf]
        simp [ht]
      rw [hok] at h₂
      simp only [Except.ok.injEq, Prod.mk.injEq] at h₂
      obtain ⟨hs, he⟩ := h₂
      constructor
      · rw [← hs, ← he]
        unfold grantsFor
        simp [List.filter_cons, filter_eq_of_filter_ne]
      · exact he.symm

/-- Claim C7: at most one active grant per secret at any time — after issuing grant A
there is exactly one stored grant for the name, and issuing grant B afterwards again
leaves exactly one, carrying B's expiry `now₂ + ttl₂·60000`: last-writer-wins, with no
additive stacking of durations. -/
theorem c7_grant_replacement (s s₁ s₂ : BrokerState) (name : String)
    (ttl₁ ttl₂ : Option Int) (now₁ now₂ e₁ e₂ : Int)
    (h₁ : grantSecret s name true ttl₁ now₁ = .ok (s₁, e₁))
    (h₂ : grantSecret s₁ name true ttl₂ now₂ = .ok (s₂, e₂)) :
    grantsFor s₁ name = [⟨name, e₁⟩]
    ∧ grantsFor s₂ name = [⟨name, e₂⟩]
    ∧ e₂ = now₂ + ttl₂.getD 60 * 60000 :=
  ⟨(issue_leaves_one_grant s s₁ name ttl₁ now₁ e₁ h₁).1,
   (issue_leaves_one_grant s₁ s₂ name ttl₂ now₂ e₂ h₂).1,
   (issue_leaves_one_grant s₁ s₂ name ttl₂ now₂ e₂ h₂).2⟩

theorem c7_grant_replacement_witness :
    grantsFor ⟨[⟨"db-pass", .restricted, "s3cr3t", none⟩], [⟨"db-pass", 300000⟩]⟩ "db-pass"
      = [⟨"db-pass", 300000⟩]
    ∧ grantsFor ⟨[⟨"db-pass", .restricted, "s3cr3t", none⟩], [⟨"db-pass", 421000⟩]⟩ "db-pass"
      = [⟨"db-pass", 421000⟩]
    ∧ (421000 : Int) = 1000 + (some (7 : Int)).getD 60 * 60000 :=
  c7_grant_replacement ⟨[⟨"db-pass", .restricted, "s3cr3t", none⟩], []⟩
    ⟨[⟨"db-pass", .restricted, "s3cr3t", none⟩], [⟨"db-pass", 300000⟩]⟩
    ⟨[⟨"db-pass", .restricted, "s3cr3t", none⟩], [⟨"db-pass", 421000⟩]⟩
    "db-pass" (some 5) (some 7) 0 1000 300000 421000 (by decide) (by decide)

/-- Claim C8: an omitted (commander default "controlled") or undefined `--tier` stores
the secret with tier `controlled`, and tier strings are matched case-insensitively:
a tier input is accepted exactly when its lowercased form names a tier (or it is
empty), and that lowercased form is what is forwarded to `setSecret`. -/
theorem c8_tier_default_and_case_insensitive (t : String) :
    parseTier none = .ok .controlled
    ∧ parseTier (some "controlled") = .ok .controlled
    ∧ (∀ name v descOpt stdin, v ≠ "" →
        setAction name none (some v) descOpt stdin = .stored name v .controlled descOpt)
    ∧ (∀ tier : SecretTier, jsToLower t = tier.toString → parseTier (some t) = .ok tier)
    ∧ (∀ tier : SecretTier, parseTier (some t) = .ok tier →
        jsToLower t = tier.toString ∨ (t = "" ∧ tier = .controlled)) := by
  refine ⟨rfl, by decide, ?_, ?_, ?_⟩
  · intro name v descOpt stdin hv
    simp [setAction, parseTier, hv]
  · intro tier h
    have h0 : t ≠ "" := by
      intro he
      rw [he] at h
      cases tier <;> exact absurd h (by decide)
    cases tier with
    | «open» => simp_all [parseTier, SecretTier.toString]
    | controlled => simp_all [parseTier, SecretTier.toString]
    | restricted => simp_all [parseTier, SecretTier.toString]
  · intro tier hp
    by_cases h0 : t = ""
    · subst h0
      have hc : parseTier (some "") = .ok .controlled := by decide
      rw [hc] at hp
      injection hp with h
      exact Or.inr ⟨rfl, h.symm⟩
    · left
      simp only [parseTier, if_neg h0] at hp
      by_cases h1 : jsToLower t = "open"
      · rw [if_pos h1] at hp
        cases hp
        exact h1
      · rw [if_neg h1] at hp
        by_cases h2 : jsToLower t = "controlled"
        · rw [if_pos h2] at hp
          cases hp
          exact h2
        · rw [if_neg h2] at hp
          by_cases h3 : jsToLower t = "restricted"
          · rw [if_pos h3] at hp
            cases hp
            exact h3
          · rw [if_neg h3] at hp
            exact absurd hp (by simp)

theorem c8_tier_default_and_case_insensitive_witness :
    setAction "db-pass" none (some "v") none none = .stored "db-pass" "v" .controlled none
    ∧ parseTier (some "Restricted") = .ok .restricted :=
  ⟨(c8_tier_default_and_case_insensitive "Restricted").2.2.1 "db-pass" "v" none none (by decide),
   (c8_tier_default_and_case_insensitive "Restricted").2.2.2.1 .restricted (by decide)⟩

end OpenClaw
